import Mathlib

/-!
Verification development for the fitness-tracking query layer (`app/queries.py`,
with the Add-Workout form handler from `app/app.py`).

Embedding conventions:
* Dates are day numbers in the proleptic Gregorian calendar (`daysFromCivil`),
  so PostgreSQL `date_trunc('week', d)` becomes `dateTruncWeek` on day numbers.
* SQL `numeric` / Python `float` values are embedded as `ℚ` (arithmetic such as
  `distance_km * 1000.0` is exact on the inputs the program handles).
* The database is an explicit state `DB` of lists of rows; each query-layer
  function is a pure function of this state, and writes return the new state.
* Python exceptions surface as `Except String`; state is returned alongside the
  result so that "state unchanged on error" is expressible.
-/

/-- Day number of the Gregorian date `y-m-d`, counted from 0000-03-01
(the standard civil-to-serial conversion restricted to nonnegative years).
`daysFromCivil 1970 1 1 = 719468`, a Thursday. -/
def daysFromCivil (y m d : Nat) : Nat :=
  let y2 := if m ≤ 2 then y - 1 else y
  let era := y2 / 400
  let yoe := y2 % 400
  let mp := (m + 9) % 12
  let doy := (153 * mp + 2) / 5 + d - 1
  let doe := yoe * 365 + yoe / 4 - yoe / 100 + doy
  era * 146097 + doe

/-- PostgreSQL `date_trunc('week', d)::date`: the Monday starting the ISO week
of `d`.  Day `n` has weekday index `(n + 2) % 7` with `0 = Monday` (anchored by
1970-01-01 = Thursday = index 3). -/
def dateTruncWeek (n : Nat) : Nat := n - (n + 2) % 7

/-- A row of the `Workouts` table (column per field, `Option` for nullable). -/
structure Workout where
  workout_id : Nat
  user_id : Nat
  workout_type_id : Nat
  location_id : Option Nat
  workout_date : Nat
  start_time : Option String
  duration_seconds : Int
  distance_m : Option ℚ
  elevation_gain_m : Option ℚ
  calories_kcal : Option ℚ
  avg_heart_rate_bpm : Option ℚ
  avg_cadence : Option ℚ
  avg_power_w : Option ℚ
  effort_level : Int
  gear_id : Option Nat
  notes : Option String
deriving DecidableEq

/-- A row of the `Gear` table. -/
structure Gear where
  gear_id : Nat
  user_id : Nat
  gear_type : String
  brand : Option String
  model : Option String
  purchase_date : Option Nat
  retired : Bool
deriving DecidableEq

/-- The database state: `Users` and `Workout_Types` as (id, name) pairs,
`Workouts`, `Gear`, the `Workout_Gear` join table as (workout_id, gear_id)
pairs, and the sequence backing `Workouts.workout_id`. -/
structure DB where
  users : List (Nat × String)
  workout_types : List (Nat × String)
  workouts : List Workout
  gear : List Gear
  workout_gear : List (Nat × Nat)
  next_workout_id : Nat
deriving DecidableEq

/-- `get_user_id_by_username`: `SELECT user_id FROM Users WHERE username = %s`
then `fetchone()`; `None` when no row matches. -/
def get_user_id_by_username (db : DB) (username : String) : Option Nat :=
  (db.users.find? (fun row => row.2 == username)).map (fun row => row.1)

/-- `get_workout_type_id_by_name`: `SELECT workout_type_id FROM Workout_Types
WHERE name = %s` then `fetchone()`; `None` when no row matches. -/
def get_workout_type_id_by_name (db : DB) (name : String) : Option Nat :=
  (db.workout_types.find? (fun row => row.2 == name)).map (fun row => row.1)

/-- `insert_workout`: resolves the sport name first, raising
`ValueError("Unknown workout type: ...")` if unmapped; converts km to metres
(`distance_m = distance_km * 1000.0` when not `None`); inserts the row and
returns the new `workout_id` (`RETURNING workout_id`). The state is returned
alongside the result. -/
def insert_workout (db : DB) (user_id : Nat) (workout_type_name : String)
    (workout_date : Nat) (duration_seconds : Int) (distance_km : Option ℚ)
    (effort_level : Int) (location_id : Option Nat) (start_time : Option String)
    (elevation_gain_m : Option ℚ) (calories_kcal : Option ℚ)
    (avg_heart_rate_bpm : Option ℚ) (avg_cadence : Option ℚ)
    (avg_power_w : Option ℚ) (gear_id : Option Nat) (notes : Option String) :
    Except String Nat × DB :=
  match get_workout_type_id_by_name db workout_type_name with
  | none => (Except.error ("Unknown workout type: " ++ workout_type_name), db)
  | some workout_type_id =>
    let distance_m := distance_km.map (fun d => d * 1000)
    let wid := db.next_workout_id
    (Except.ok wid,
      { db with
        workouts := db.workouts ++
          [{ workout_id := wid, user_id := user_id,
             workout_type_id := workout_type_id, location_id := location_id,
             workout_date := workout_date, start_time := start_time,
             duration_seconds := duration_seconds, distance_m := distance_m,
             elevation_gain_m := elevation_gain_m,
             calories_kcal := calories_kcal,
             avg_heart_rate_bpm := avg_heart_rate_bpm,
             avg_cadence := avg_cadence, avg_power_w := avg_power_w,
             effort_level := effort_level, gear_id := gear_id,
             notes := notes }],
        next_workout_id := wid + 1 })

/-- Modelled from the spec: the schema DDL is not in the repository; per the
spec, `Workout_Gear` pairs are unique ("WorkoutGear pairs are unique (duplicate
attach is a no-op)"), so `INSERT ... ON CONFLICT DO NOTHING` inserts the pair
exactly when it is not already present. -/
def insertWorkoutGearRow (rows : List (Nat × Nat)) (workout_id gid : Nat) :
    List (Nat × Nat) :=
  if (workout_id, gid) ∈ rows then rows else rows ++ [(workout_id, gid)]

/-- `attach_gear_to_workout`: returns immediately on an empty `gear_ids` list
(before `get_connection()`); otherwise inserts each id of `set(gear_ids)` into
`Workout_Gear` with `ON CONFLICT DO NOTHING`. -/
def attach_gear_to_workout (db : DB) (workout_id : Nat) (gear_ids : List Nat) :
    DB :=
  if gear_ids.isEmpty then db
  else
    { db with
      workout_gear :=
        gear_ids.dedup.foldl
          (fun rows gid => insertWorkoutGearRow rows workout_id gid)
          db.workout_gear }

/-- Number of storage connections `attach_gear_to_workout` opens: the early
return on an empty list happens before `get_connection()`, every other path
opens exactly one. -/
def attach_gear_connections_opened (gear_ids : List Nat) : Nat :=
  if gear_ids.isEmpty then 0 else 1

/-- Python `str.strip()`: removes leading and trailing whitespace. -/
def pyStrip (s : String) : String :=
  ⟨((s.data.dropWhile Char.isWhitespace).reverse.dropWhile
      Char.isWhitespace).reverse⟩

/-- Code-point lexicographic strict order on character lists (the collation
used to embed SQL string ordering; it agrees with SQL on the ASCII names and
times this schema stores). -/
def strLtAux : List Char → List Char → Bool
  | [], [] => false
  | [], _ :: _ => true
  | _ :: _, [] => false
  | a :: as, b :: bs =>
    if a.val < b.val then true
    else if b.val < a.val then false
    else strLtAux as bs

/-- Code-point lexicographic strict order on strings. -/
def strLt (a b : String) : Bool := strLtAux a.data b.data

/-- Code-point lexicographic order on strings. -/
def strLe (a b : String) : Bool := !(strLt b a)

/-- `DESC NULLS LAST` ordering on a nullable string column: any value sorts
before `NULL`, and two values sort by descending string order. -/
def optStrDescLe (a b : Option String) : Prop :=
  match a, b with
  | none, none => True
  | none, some _ => False
  | some _, none => True
  | some x, some y => strLe y x = true

instance : DecidableRel optStrDescLe := fun a b => by
  unfold optStrDescLe
  cases a <;> cases b <;> infer_instance

/-- A result row of `fetch_workouts`:
`(workout_id, workout_date, start_time, workout_type, distance_km,
duration_seconds, effort_level, notes)`. -/
structure FetchRow where
  workout_id : Nat
  workout_date : Nat
  start_time : Option String
  workout_type : String
  distance_km : Option ℚ
  duration_seconds : Int
  effort_level : Int
  notes : Option String
deriving DecidableEq

/-- `ORDER BY w.workout_date DESC, w.start_time DESC NULLS LAST`. -/
def fetchRowLe (a b : FetchRow) : Prop :=
  b.workout_date < a.workout_date ∨
    (a.workout_date = b.workout_date ∧ optStrDescLe a.start_time b.start_time)

instance : DecidableRel fetchRowLe := fun a b => by
  unfold fetchRowLe; infer_instance

/-- The Python test `if workout_type_name and workout_type_name != "All"`:
`None` and the empty string are falsy, and the sentinel `"All"` is excluded,
so only in the remaining cases is the `wt.name = %s` filter appended. -/
def typeFilterActive (workout_type_name : Option String) : Bool :=
  match workout_type_name with
  | none => false
  | some s => !(s == "") && !(s == "All")

/-- The optional `w.workout_date >= %s` filter (`if start_date:`; a date
object is always truthy). -/
def dateLowerOk (start_date : Option Nat) (d : Nat) : Bool :=
  match start_date with
  | none => true
  | some s => decide (s ≤ d)

/-- The optional `w.workout_date <= %s` filter (`if end_date:`). -/
def dateUpperOk (end_date : Option Nat) (d : Nat) : Bool :=
  match end_date with
  | none => true
  | some e => decide (d ≤ e)

/-- `fetch_workouts`: joins `Workouts` to `Workout_Types`, filters by user,
optionally by sport name and inclusive date range, converts metres to km
(`distance_m / 1000.0`), newest first (`workout_date DESC, start_time DESC
NULLS LAST`). -/
def fetch_workouts (db : DB) (user_id : Nat) (workout_type_name : Option String)
    (start_date end_date : Option Nat) : List FetchRow :=
  List.insertionSort fetchRowLe
    (db.workouts.filterMap fun w =>
      match db.workout_types.find? (fun t => t.1 == w.workout_type_id) with
      | none => none
      | some t =>
        if w.user_id == user_id
            && (!typeFilterActive workout_type_name
                || (some t.2 == workout_type_name))
            && dateLowerOk start_date w.workout_date
            && dateUpperOk end_date w.workout_date then
          some { workout_id := w.workout_id, workout_date := w.workout_date,
                 start_time := w.start_time, workout_type := t.2,
                 distance_km := w.distance_m.map (fun m => m / 1000),
                 duration_seconds := w.duration_seconds,
                 effort_level := w.effort_level, notes := w.notes }
        else none)

/-- A result row of `get_weekly_volume_by_sport`:
`(week_start, workout_type, total_distance_km, total_duration_sec)`. -/
structure WeeklyRow where
  week_start : Nat
  workout_type : String
  total_distance_km : ℚ
  total_duration_sec : Int
deriving DecidableEq

/-- The joined rows `get_weekly_volume_by_sport` aggregates over: workouts of
the user with `workout_date BETWEEN start_date AND end_date` (inclusive),
inner-joined to `Workout_Types` for the sport name. -/
def weeklyMatching (db : DB) (user_id : Nat) (start_date end_date : Nat) :
    List (Workout × String) :=
  (db.workouts.filter fun w =>
      w.user_id == user_id && decide (start_date ≤ w.workout_date)
        && decide (w.workout_date ≤ end_date)).filterMap
    fun w =>
      (db.workout_types.find? (fun t => t.1 == w.workout_type_id)).map
        (fun t => (w, t.2))

/-- The `GROUP BY week_start, wt.name` key of a joined row. -/
def weeklyKey (p : Workout × String) : Nat × String :=
  (dateTruncWeek p.1.workout_date, p.2)

/-- `ORDER BY week_start ASC, wt.name` on group keys. -/
def weeklyKeyLe (a b : Nat × String) : Prop :=
  a.1 < b.1 ∨ (a.1 = b.1 ∧ strLe a.2 b.2 = true)

instance : DecidableRel weeklyKeyLe := fun a b => by
  unfold weeklyKeyLe; infer_instance

/-- One aggregated output row for group key `k`:
`COALESCE(SUM(w.distance_m) / 1000.0, 0)` — `SUM` skips `NULL`s, and an
all-`NULL` group coalesces to `0`, so the total is the sum of the present
distances (`getD 0`) over the group — and `COALESCE(SUM(duration_seconds), 0)`. -/
def mkWeeklyRow (m : List (Workout × String)) (k : Nat × String) : WeeklyRow :=
  { week_start := k.1, workout_type := k.2,
    total_distance_km :=
      ((m.filter (fun p => weeklyKey p == k)).foldl
        (fun acc p => acc + p.1.distance_m.getD 0) 0) / 1000,
    total_duration_sec :=
      (m.filter (fun p => weeklyKey p == k)).foldl
        (fun acc p => acc + p.1.duration_seconds) 0 }

/-- `get_weekly_volume_by_sport`: groups the user's workouts in the inclusive
range by `(date_trunc('week', workout_date), wt.name)`, sums distance (as km)
and duration, ordered by week start then sport name. -/
def get_weekly_volume_by_sport (db : DB) (user_id : Nat)
    (start_date end_date : Nat) : List WeeklyRow :=
  (List.insertionSort weeklyKeyLe
      ((weeklyMatching db user_id start_date end_date).map weeklyKey).dedup).map
    (mkWeeklyRow (weeklyMatching db user_id start_date end_date))

/-- Total metres over the workouts attached to gear `gid` through
`Workout_Gear` (`NULL` distances contribute nothing to `SUM`). -/
def gearTotalDistanceM (db : DB) (gid : Nat) : ℚ :=
  (db.workouts.filter
      (fun w => decide ((w.workout_id, gid) ∈ db.workout_gear))).foldl
    (fun acc w => acc + w.distance_m.getD 0) 0

/-- A row of the `gear_distance` view. -/
structure GearDistRow where
  gear_id : Nat
  gear_type : String
  brand : Option String
  model : Option String
  total_distance_m : ℚ
deriving DecidableEq

/-- Modelled from the spec: the `gear_distance` VIEW is created by schema
scripts that are not in the repository.  Per the spec and the query docstring
it joins `Gear + Workout_Gear + Workouts` and stores `total_distance_m`, the
summed distance of all workouts attached to each gear item of the user; gear
with no attached workouts appears with total `0` (the spec orders "two gear
items tied at 0 km" by ascending gear id, so such rows are present). -/
def gear_distance (db : DB) (user_id : Nat) : List GearDistRow :=
  (db.gear.filter (fun g => g.user_id == user_id)).map fun g =>
    { gear_id := g.gear_id, gear_type := g.gear_type, brand := g.brand,
      model := g.model, total_distance_m := gearTotalDistanceM db g.gear_id }

/-- A result row of `get_total_distance_per_gear`:
`(gear_id, gear_type, brand, model, total_distance_km)`. -/
structure GearTotalRow where
  gear_id : Nat
  gear_type : String
  brand : Option String
  model : Option String
  total_distance_km : ℚ
deriving DecidableEq

/-- `ORDER BY total_distance_m DESC, gear_id` on view rows. -/
def gearOrder (a b : GearDistRow) : Prop :=
  b.total_distance_m < a.total_distance_m ∨
    (a.total_distance_m = b.total_distance_m ∧ a.gear_id ≤ b.gear_id)

instance : DecidableRel gearOrder := fun a b => by
  unfold gearOrder; infer_instance

instance : IsTotal GearDistRow gearOrder where
  total a b := by
    unfold gearOrder
    rcases lt_trichotomy a.total_distance_m b.total_distance_m with h | h | h
    · exact Or.inr (Or.inl h)
    · rcases Nat.le_total a.gear_id b.gear_id with h2 | h2
      · exact Or.inl (Or.inr ⟨h, h2⟩)
      · exact Or.inr (Or.inr ⟨h.symm, h2⟩)
    · exact Or.inl (Or.inl h)

instance : IsTrans GearDistRow gearOrder where
  trans a b c hab hbc := by
    unfold gearOrder at *
    rcases hab with hab | ⟨hab, hab2⟩
    · rcases hbc with hbc | ⟨hbc, _⟩
      · exact Or.inl (hbc.trans hab)
      · exact Or.inl (hbc ▸ hab)
    · rcases hbc with hbc | ⟨hbc, hbc2⟩
      · exact Or.inl (hab ▸ hbc)
      · exact Or.inr ⟨hab.trans hbc, hab2.trans hbc2⟩

/-- Projection of a `gear_distance` row to a result row of
`get_total_distance_per_gear` (`total_distance_m / 1000.0`). -/
def gearRowToKm (r : GearDistRow) : GearTotalRow :=
  { gear_id := r.gear_id, gear_type := r.gear_type, brand := r.brand,
    model := r.model, total_distance_km := r.total_distance_m / 1000 }

/-- `get_total_distance_per_gear`: reads the user's rows of the
`gear_distance` view, converts metres to km, ordered by
`total_distance_m DESC, gear_id`. -/
def get_total_distance_per_gear (db : DB) (user_id : Nat) :
    List GearTotalRow :=
  (List.insertionSort gearOrder (gear_distance db user_id)).map gearRowToKm

/-- The ordering of `get_total_distance_per_gear` rows induced on the km
column: descending total, then ascending gear id for ties. -/
def gearOrderKm (a b : GearTotalRow) : Prop :=
  b.total_distance_km < a.total_distance_km ∨
    (a.total_distance_km = b.total_distance_km ∧ a.gear_id ≤ b.gear_id)

/-- The Add-Workout form handler (`render_add_workout` in `app/app.py`, submit
branch): `duration_seconds = int(duration_minutes * 60)`; each optional metric
with value `0` becomes `None` (power additionally only for bike); blank
`start_time` / `notes` strip to `None`; the first selected gear id is the
primary `gear_id`; location is always `None`; then `insert_workout` followed by
`attach_gear_to_workout` on the selected gear. -/
def render_add_workout_submit (db : DB) (user_id : Nat) (workout_type : String)
    (workout_date : Nat) (duration_minutes : ℚ) (distance_km : ℚ)
    (effort_level : Int) (start_time_str : String) (elevation_gain_m : ℚ)
    (calories_kcal : ℚ) (avg_hr : ℚ) (avg_cadence : ℚ) (avg_power_w_val : ℚ)
    (selected_gear_ids : List Nat) (notes : String) : Except String Nat × DB :=
  let duration_seconds : Int := ⌊duration_minutes * 60⌋
  let elevation_val := if 0 < elevation_gain_m then some elevation_gain_m else none
  let calories_val := if 0 < calories_kcal then some calories_kcal else none
  let hr_val := if 0 < avg_hr then some avg_hr else none
  let cadence_val := if 0 < avg_cadence then some avg_cadence else none
  let power_val :=
    if workout_type == "bike" && decide (0 < avg_power_w_val) then
      some avg_power_w_val
    else none
  let start_time_clean :=
    if pyStrip start_time_str == "" then none
    else some (pyStrip start_time_str)
  let notes_clean :=
    if pyStrip notes == "" then none else some (pyStrip notes)
  let primary_gear_id := selected_gear_ids.head?
  match insert_workout db user_id workout_type workout_date duration_seconds
      (some distance_km) effort_level none start_time_clean elevation_val
      calories_val hr_val cadence_val power_val primary_gear_id notes_clean with
  | (Except.ok wid, db1) =>
    (Except.ok wid, attach_gear_to_workout db1 wid selected_gear_ids)
  | (Except.error e, db1) => (Except.error e, db1)

/-! Concrete database states used to exercise the theorems. -/

/-- The static `Workout_Types` reference data: swim, bike, run. -/
def demoTypes : List (Nat × String) := [(1, "swim"), (2, "bike"), (3, "run")]

/-- A database with one user and the three workout types, no workouts. -/
def demoDB : DB :=
  { users := [(1, "Alice")], workout_types := demoTypes, workouts := [],
    gear := [], workout_gear := [], next_workout_id := 1 }

/-- A run workout of user 1 on Monday 2025-10-06 (5 km, one hour). -/
def runMonday : Workout :=
  { workout_id := 1, user_id := 1, workout_type_id := 3, location_id := none,
    workout_date := daysFromCivil 2025 10 6, start_time := none,
    duration_seconds := 3600, distance_m := some 5000,
    elevation_gain_m := none, calories_kcal := none,
    avg_heart_rate_bpm := none, avg_cadence := none, avg_power_w := none,
    effort_level := 6, gear_id := none, notes := none }

/-- A run workout of user 1 on Friday 2025-10-10 (10 km, half an hour). -/
def runFriday : Workout :=
  { workout_id := 2, user_id := 1, workout_type_id := 3, location_id := none,
    workout_date := daysFromCivil 2025 10 10, start_time := none,
    duration_seconds := 1800, distance_m := some 10000,
    elevation_gain_m := none, calories_kcal := none,
    avg_heart_rate_bpm := none, avg_cadence := none, avg_power_w := none,
    effort_level := 6, gear_id := none, notes := none }

/-- A database holding the two run workouts of the same Mon-Sun week. -/
def weeklyDemoDB : DB :=
  { users := [(1, "Alice")], workout_types := demoTypes,
    workouts := [runMonday, runFriday], gear := [], workout_gear := [],
    next_workout_id := 3 }

/-- A database for user 7 with gear 1 totalling 10 km and gear 2 totalling
42 km of attached workouts. -/
def gearDemoDB : DB :=
  { users := [(7, "Bob")], workout_types := demoTypes,
    workouts :=
      [{ workout_id := 1, user_id := 7, workout_type_id := 3,
         location_id := none, workout_date := daysFromCivil 2025 10 6,
         start_time := none, duration_seconds := 3600,
         distance_m := some 10000, elevation_gain_m := none,
         calories_kcal := none, avg_heart_rate_bpm := none,
         avg_cadence := none, avg_power_w := none, effort_level := 6,
         gear_id := none, notes := none },
       { workout_id := 2, user_id := 7, workout_type_id := 3,
         location_id := none, workout_date := daysFromCivil 2025 10 10,
         start_time := none, duration_seconds := 1800,
         distance_m := some 42000, elevation_gain_m := none,
         calories_kcal := none, avg_heart_rate_bpm := none,
         avg_cadence := none, avg_power_w := none, effort_level := 6,
         gear_id := none, notes := none }],
    gear :=
      [{ gear_id := 1, user_id := 7, gear_type := "shoe", brand := none,
         model := none, purchase_date := none, retired := false },
       { gear_id := 2, user_id := 7, gear_type := "bike", brand := none,
         model := none, purchase_date := none, retired := false }],
    workout_gear := [(1, 1), (2, 2)], next_workout_id := 3 }

/-- A database for user 7 with two gear items and no workouts: both totals
are 0 km. -/
def gearTieDB : DB :=
  { users := [(7, "Bob")], workout_types := demoTypes, workouts := [],
    gear :=
      [{ gear_id := 1, user_id := 7, gear_type := "shoe", brand := none,
         model := none, purchase_date := none, retired := false },
       { gear_id := 2, user_id := 7, gear_type := "bike", brand := none,
         model := none, purchase_date := none, retired := false }],
    workout_gear := [], next_workout_id := 1 }

/-! Helper lemmas. -/

/-- Membership in the list produced by one `ON CONFLICT DO NOTHING` insert. -/
lemma mem_insertWorkoutGearRow {rows : List (Nat × Nat)} {w g : Nat}
    (p : Nat × Nat) :
    p ∈ insertWorkoutGearRow rows w g ↔ p ∈ rows ∨ p = (w, g) := by
  unfold insertWorkoutGearRow
  split
  · next hm =>
    constructor
    · exact Or.inl
    · rintro (h | rfl)
      · exact h
      · exact hm
  · simp [List.mem_append]

/-- Multiplicity of a pair after a fold of `ON CONFLICT DO NOTHING` inserts:
starting from a table holding the pair at most once, the pair ends up present
exactly once if it was present or is inserted, and zero times otherwise. -/
lemma count_foldl_insertWorkoutGearRow (w g : Nat) :
    ∀ (l : List Nat) (rows : List (Nat × Nat)),
      List.count (w, g) rows ≤ 1 →
      List.count (w, g)
          (l.foldl (fun r x => insertWorkoutGearRow r w x) rows) =
        if (w, g) ∈ rows ∨ g ∈ l then 1 else 0
  | [], rows, h => by
    simp only [List.foldl_nil, List.not_mem_nil, or_false]
    split
    · next hm => exact le_antisymm h (List.count_pos_iff.mpr hm)
    · next hm => exact List.count_eq_zero.mpr hm
  | x :: l, rows, h => by
    rw [List.foldl_cons]
    have hle : List.count (w, g) (insertWorkoutGearRow rows w x) ≤ 1 := by
      unfold insertWorkoutGearRow
      split
      · exact h
      · next hni =>
        rw [List.count_append, List.count_singleton]
        by_cases hgx : g = x
        · subst hgx
          have h0 : List.count (w, g) rows = 0 := List.count_eq_zero.mpr hni
          simp [h0]
        · have hne : ((w, x) == (w, g)) = false := by
            simp [Prod.ext_iff]
            intro hgx2
            exact absurd hgx2.symm hgx
          rw [hne]
          simpa using h
    rw [count_foldl_insertWorkoutGearRow w g l (insertWorkoutGearRow rows w x)
      hle]
    refine if_congr ?_ rfl rfl
    rw [mem_insertWorkoutGearRow]
    simp only [List.mem_cons, Prod.mk.injEq, true_and]
    tauto

/-- `attach_gear_to_workout` acts on the join table as the fold of inserts
over the deduplicated id list (the empty-list early return coincides with the
empty fold). -/
lemma attach_gear_to_workout_workout_gear (db : DB) (w : Nat)
    (l : List Nat) :
    (attach_gear_to_workout db w l).workout_gear =
      l.dedup.foldl (fun rows gid => insertWorkoutGearRow rows w gid)
        db.workout_gear := by
  unfold attach_gear_to_workout
  split
  · next he => simp [List.isEmpty_iff.mp he]
  · rfl

/-- After `attach_gear_to_workout`, the multiplicity of a pair that started at
most once is `1` exactly when it was present or its gear id was attached. -/
lemma count_attach_gear_to_workout (db : DB) (w g : Nat) (l : List Nat)
    (h : List.count (w, g) db.workout_gear ≤ 1) :
    List.count (w, g) (attach_gear_to_workout db w l).workout_gear =
      if (w, g) ∈ db.workout_gear ∨ g ∈ l then 1 else 0 := by
  rw [attach_gear_to_workout_workout_gear,
    count_foldl_insertWorkoutGearRow w g l.dedup db.workout_gear h]
  exact if_congr (by rw [List.mem_dedup]) rfl rfl

/-- A successful name-to-id lookup guarantees the reverse id lookup used by
the `JOIN Workout_Types` succeeds. -/
lemma find_type_by_id_of_name (db : DB) (name : String) (tid : Nat)
    (hmap : get_workout_type_id_by_name db name = some tid) :
    ∃ t, db.workout_types.find? (fun t2 => t2.1 == tid) = some t := by
  unfold get_workout_type_id_by_name at hmap
  obtain ⟨e, hfind, he⟩ := Option.map_eq_some'.mp hmap
  have hmem := List.mem_of_find?_eq_some hfind
  have hsome : (db.workout_types.find? (fun t2 => t2.1 == tid)).isSome := by
    rw [List.find?_isSome]
    exact ⟨e, hmem, by simp [he]⟩
  exact Option.isSome_iff_exists.mp hsome

/-- A stored workout of the user appears in the unfiltered
`fetch_workouts` listing, projected with metres converted to km. -/
lemma mem_fetch_workouts_of_mem (db : DB) (uid : Nat) (w : Workout)
    (t : Nat × String) (hw : w ∈ db.workouts) (huid : w.user_id = uid)
    (ht : db.workout_types.find? (fun t2 => t2.1 == w.workout_type_id) =
      some t) :
    ({ workout_id := w.workout_id, workout_date := w.workout_date,
       start_time := w.start_time, workout_type := t.2,
       distance_km := w.distance_m.map (fun m => m / 1000),
       duration_seconds := w.duration_seconds,
       effort_level := w.effort_level, notes := w.notes } : FetchRow) ∈
      fetch_workouts db uid none none none := by
  unfold fetch_workouts
  rw [List.mem_insertionSort]
  apply List.mem_filterMap.mpr
  refine ⟨w, hw, ?_⟩
  rw [ht]
  simp [typeFilterActive, dateLowerOk, dateUpperOk, huid]

/-- When the Python sport filter test is falsy (or the sentinel `"All"`),
`fetch_workouts` builds the same statement as with no filter at all. -/
lemma fetch_workouts_filter_inactive (db : DB) (uid : Nat)
    (x : Option String) (s e : Option Nat) (h : typeFilterActive x = false) :
    fetch_workouts db uid x s e = fetch_workouts db uid none s e := by
  have h2 : typeFilterActive none = false := rfl
  simp only [fetch_workouts, h, h2, Bool.not_false, Bool.true_or]

/-- The successful branch of `insert_workout`: with the sport name mapped to
`tid`, the call returns the next workout id and appends the row with km
converted to metres. -/
lemma insert_workout_ok (db : DB) (uid tid : Nat) (name : String) (wd : Nat)
    (dur : Int) (dkm : Option ℚ) (eff : Int) (loc : Option Nat)
    (stime : Option String) (elev cal hr cad pw : Option ℚ)
    (gid : Option Nat) (nts : Option String)
    (hmap : get_workout_type_id_by_name db name = some tid) :
    insert_workout db uid name wd dur dkm eff loc stime elev cal hr cad pw
        gid nts =
      (Except.ok db.next_workout_id,
       { db with
         workouts := db.workouts ++
           [{ workout_id := db.next_workout_id, user_id := uid,
              workout_type_id := tid, location_id := loc,
              workout_date := wd, start_time := stime,
              duration_seconds := dur,
              distance_m := dkm.map (fun x => x * 1000),
              elevation_gain_m := elev, calories_kcal := cal,
              avg_heart_rate_bpm := hr, avg_cadence := cad,
              avg_power_w := pw, effort_level := eff, gear_id := gid,
              notes := nts }],
         next_workout_id := db.next_workout_id + 1 }) := by
  unfold insert_workout
  rw [hmap]

/-! Claim theorems. -/

/-- Claim C3: for every sport name that does not map to a known workout type,
`insert_workout` raises the hard `Unknown workout type` error to the caller,
and since the name is resolved before the `INSERT` statement runs, the state
is unchanged on this error. -/
theorem insert_workout_unknown_sport (db : DB) (uid : Nat) (name : String)
    (wd : Nat) (dur : Int) (dkm : Option ℚ) (eff : Int) (loc : Option Nat)
    (stime : Option String) (elev cal hr cad pw : Option ℚ)
    (gid : Option Nat) (nts : Option String)
    (hmap : get_workout_type_id_by_name db name = none) :
    insert_workout db uid name wd dur dkm eff loc stime elev cal hr cad pw
        gid nts =
      (Except.error ("Unknown workout type: " ++ name), db) := by
  unfold insert_workout
  rw [hmap]

/-- `insert_workout_unknown_sport` exercised on an unmapped sport name. -/
theorem insert_workout_unknown_sport_witness :
    insert_workout demoDB 1 "yoga" 0 0 none 0 none none none none none none
        none none none =
      (Except.error ("Unknown workout type: " ++ "yoga"), demoDB) :=
  insert_workout_unknown_sport demoDB 1 "yoga" 0 0 none 0 none none none none
    none none none none none (by decide)

/-- Claim C7: with `start_date > end_date` the two date filters are jointly
unsatisfiable, so `fetch_workouts` returns the empty listing; the query layer
is a total function here, so the empty range is handled, not rejected. -/
theorem fetch_workouts_empty_range (db : DB) (uid : Nat)
    (nameF : Option String) (s e : Nat) (h : e < s) :
    fetch_workouts db uid nameF (some s) (some e) = [] := by
  unfold fetch_workouts
  refine Eq.trans
    (congrArg (List.insertionSort fetchRowLe)
      (List.filterMap_eq_nil_iff.mpr ?_)) rfl
  intro w hw
  cases hfind : db.workout_types.find? (fun t => t.1 == w.workout_type_id) with
  | none => simp only [hfind]
  | some t =>
    simp only [hfind]
    rw [if_neg]
    intro hcond
    simp only [Bool.and_eq_true, dateLowerOk, dateUpperOk,
      decide_eq_true_eq] at hcond
    omega

/-- `fetch_workouts_empty_range` exercised on a reversed range. -/
theorem fetch_workouts_empty_range_witness :
    fetch_workouts demoDB 1 none (some 10) (some 5) = [] :=
  fetch_workouts_empty_range demoDB 1 none 10 5 (by decide)

/-- Claim C9: a `workout_type_name` of `None`, the empty string, or the
sentinel `"All"` leaves the sport filter inactive, so the result equals the
unfiltered listing for the same user and date range. -/
theorem fetch_workouts_sentinel_no_filter (db : DB) (uid : Nat)
    (s e : Option Nat) :
    fetch_workouts db uid (some "") s e = fetch_workouts db uid none s e ∧
    fetch_workouts db uid (some "All") s e = fetch_workouts db uid none s e :=
  ⟨fetch_workouts_filter_inactive db uid (some "") s e (by decide),
   fetch_workouts_filter_inactive db uid (some "All") s e (by decide)⟩

/-- Claim C10: `attach_gear_to_workout` on an empty `gear_ids` list returns
before `get_connection()`: no connection is opened and the state is
unchanged. -/
theorem attach_gear_empty_noop (db : DB) (wid : Nat) :
    attach_gear_to_workout db wid [] = db ∧
    attach_gear_connections_opened ([] : List Nat) = 0 :=
  ⟨rfl, rfl⟩

/-- Claim C2: attaching the same gear id to the same workout more than once —
within one call's list (which may repeat the id) or across two calls — leaves
exactly one `(workout, gear)` join row; the duplicate insert is skipped by
`ON CONFLICT DO NOTHING` and the operation is total (it never raises). -/
theorem attach_gear_idempotent (db : DB) (w g : Nat) (l₁ l₂ : List Nat)
    (h0 : (w, g) ∉ db.workout_gear) (hg : g ∈ l₁ ∨ g ∈ l₂) :
    List.count (w, g)
        (attach_gear_to_workout (attach_gear_to_workout db w l₁) w
          l₂).workout_gear = 1 := by
  have h1 : List.count (w, g) db.workout_gear ≤ 1 := by
    rw [List.count_eq_zero.mpr h0]
    omega
  have hc1 := count_attach_gear_to_workout db w g l₁ h1
  have h2 : List.count (w, g)
      (attach_gear_to_workout db w l₁).workout_gear ≤ 1 := by
    rw [hc1]
    split <;> omega
  have hc2 := count_attach_gear_to_workout (attach_gear_to_workout db w l₁)
    w g l₂ h2
  rw [hc2, if_pos]
  rcases hg with hg | hg
  · left
    rw [← List.count_pos_iff, hc1, if_pos (Or.inr hg)]
    omega
  · exact Or.inr hg

/-- `attach_gear_idempotent` exercised: gear 5 attached twice in one call and
once more in a second call yields a single join row. -/
theorem attach_gear_idempotent_witness :
    List.count (3, 5)
        (attach_gear_to_workout (attach_gear_to_workout demoDB 3 [5, 5, 9]) 3
          [5]).workout_gear = 1 :=
  attach_gear_idempotent demoDB 3 5 [5, 5, 9] [5] (by decide)
    (Or.inl (by decide))

/-- Claim C8: the name lookups return the identifier of a record whose name is
a case-sensitive exact match of the argument, and return `None` — rather than
raising — exactly when no record matches. -/
theorem lookup_by_name_contract (db : DB) (u n : String) (i j : Nat) :
    (get_user_id_by_username db u = none ↔ ∀ p ∈ db.users, p.2 ≠ u) ∧
    (get_user_id_by_username db u = some i → (i, u) ∈ db.users) ∧
    (get_workout_type_id_by_name db n = none ↔
      ∀ p ∈ db.workout_types, p.2 ≠ n) ∧
    (get_workout_type_id_by_name db n = some j →
      (j, n) ∈ db.workout_types) := by
  refine ⟨?_, ?_, ?_, ?_⟩
  · unfold get_user_id_by_username
    rw [Option.map_eq_none', List.find?_eq_none]
    simp
  · intro h
    unfold get_user_id_by_username at h
    obtain ⟨t, hfind, h1⟩ := Option.map_eq_some'.mp h
    have ht2 : t.2 = u := by simpa using List.find?_some hfind
    have hmem := List.mem_of_find?_eq_some hfind
    have hiu : (i, u) = t := by
      rw [Prod.ext_iff]
      exact ⟨h1.symm, ht2.symm⟩
    rw [hiu]
    exact hmem
  · unfold get_workout_type_id_by_name
    rw [Option.map_eq_none', List.find?_eq_none]
    simp
  · intro h
    unfold get_workout_type_id_by_name at h
    obtain ⟨t, hfind, h1⟩ := Option.map_eq_some'.mp h
    have ht2 : t.2 = n := by simpa using List.find?_some hfind
    have hmem := List.mem_of_find?_eq_some hfind
    have hjn : (j, n) = t := by
      rw [Prod.ext_iff]
      exact ⟨h1.symm, ht2.symm⟩
    rw [hjn]
    exact hmem

/-- `lookup_by_name_contract` exercised: the match is case-sensitive, so
`"alice"` misses the stored `"Alice"` and `"Run"` misses `"run"`, both
returning `None` instead of raising. -/
theorem lookup_by_name_contract_witness :
    get_user_id_by_username demoDB "alice" = none ∧
    get_workout_type_id_by_name demoDB "Run" = none :=
  ⟨(lookup_by_name_contract demoDB "alice" "Run" 0 0).1.mpr (by decide),
   (lookup_by_name_contract demoDB "alice" "Run" 0 0).2.2.1.mpr (by decide)⟩

/-- Claim C1: for every mapped sport name in {swim, bike, run} and every
distance `d` km, `insert_workout` returns the newly assigned workout id,
stores the distance as `d * 1000` metres (the canonical unit), and a
subsequent lookup of the listing returns that workout with a distance
equal to the input kilometres converted to metres (exactly, in the `ℚ`
embedding of the floating-point arithmetic). -/
theorem insert_workout_km_to_m (db : DB) (uid tid : Nat) (name : String)
    (wd : Nat) (dur : Int) (d : ℚ) (eff : Int) (loc : Option Nat)
    (stime : Option String) (elev cal hr cad pw : Option ℚ)
    (gid : Option Nat) (nts : Option String)
    (_hname : name = "swim" ∨ name = "bike" ∨ name = "run")
    (hmap : get_workout_type_id_by_name db name = some tid) :
    (insert_workout db uid name wd dur (some d) eff loc stime elev cal hr
        cad pw gid nts).1 = Except.ok db.next_workout_id ∧
    (∃ w ∈ (insert_workout db uid name wd dur (some d) eff loc stime elev
        cal hr cad pw gid nts).2.workouts,
      w.workout_id = db.next_workout_id ∧
      w.distance_m = some (d * 1000)) ∧
    (∃ row ∈ fetch_workouts (insert_workout db uid name wd dur (some d) eff
        loc stime elev cal hr cad pw gid nts).2 uid none none none,
      row.workout_id = db.next_workout_id ∧
      row.distance_km = some d) := by
  rw [insert_workout_ok db uid tid name wd dur (some d) eff loc stime elev
    cal hr cad pw gid nts hmap]
  obtain ⟨t, ht⟩ := find_type_by_id_of_name db name tid hmap
  refine ⟨rfl, ⟨_, List.mem_append_right _ (List.mem_singleton_self _),
    rfl, rfl⟩, ?_⟩
  refine ⟨_, mem_fetch_workouts_of_mem _ uid _ t
    (List.mem_append_right _ (List.mem_singleton_self _)) rfl ht, rfl, ?_⟩
  show Option.map (fun m => m / 1000)
      (Option.map (fun x => x * 1000) (some d)) = some d
  simp only [Option.map_some']
  rw [mul_div_cancel_right₀ d (by norm_num : (1000 : ℚ) ≠ 0)]

/-- `insert_workout_km_to_m` exercised: a 5 km run is stored and returned. -/
theorem insert_workout_km_to_m_witness :
    (insert_workout demoDB 1 "run" (daysFromCivil 2025 10 6) 3600 (some 5) 6
        none none none none none none none none none).1 =
      Except.ok demoDB.next_workout_id :=
  (insert_workout_km_to_m demoDB 1 3 "run" (daysFromCivil 2025 10 6) 3600 5 6
    none none none none none none none none none
    (Or.inr (Or.inr rfl)) (by decide)).1

/-- Claim C4: submitting the Add-Workout form with every optional metric
zero and blank text fields stores the workout with all those columns `NULL`
(`none`), and a subsequent fetch of the workout listing shows the optional
fields it projects as absent, not as zero or empty. -/
theorem add_workout_zero_optional_metrics (db : DB) (uid tid : Nat)
    (name : String) (wd : Nat) (dm d : ℚ) (eff : Int) (stime nts : String)
    (hmap : get_workout_type_id_by_name db name = some tid)
    (hstime : pyStrip stime = "") (hnts : pyStrip nts = "") :
    (∃ w ∈ (render_add_workout_submit db uid name wd dm d eff stime 0 0 0 0 0
        [] nts).2.workouts,
      w.workout_id = db.next_workout_id ∧
      w.elevation_gain_m = none ∧ w.calories_kcal = none ∧
      w.avg_heart_rate_bpm = none ∧ w.avg_cadence = none ∧
      w.avg_power_w = none ∧ w.start_time = none ∧ w.notes = none ∧
      w.gear_id = none) ∧
    (∃ row ∈ fetch_workouts (render_add_workout_submit db uid name wd dm d
        eff stime 0 0 0 0 0 [] nts).2 uid none none none,
      row.workout_id = db.next_workout_id ∧
      row.start_time = none ∧ row.notes = none) := by
  have h00 : ¬ ((0 : ℚ) < 0) := lt_irrefl 0
  have hra : render_add_workout_submit db uid name wd dm d eff stime 0 0 0 0 0
      [] nts =
      insert_workout db uid name wd ⌊dm * 60⌋ (some d) eff none none none
        none none none none none none := by
    simp only [render_add_workout_submit, hstime, hnts, h00, beq_self_eq_true,
      if_true, if_false, decide_False, Bool.and_false, Bool.false_eq_true,
      List.head?_nil, attach_gear_to_workout, List.isEmpty_nil]
    rcases hins : insert_workout db uid name wd ⌊dm * 60⌋ (some d) eff none
      none none none none none none none none with ⟨res, db1⟩
    cases res <;> rfl
  rw [hra, insert_workout_ok db uid tid name wd ⌊dm * 60⌋ (some d) eff none
    none none none none none none none none hmap]
  obtain ⟨t, ht⟩ := find_type_by_id_of_name db name tid hmap
  refine ⟨⟨_, List.mem_append_right _ (List.mem_singleton_self _),
    rfl, rfl, rfl, rfl, rfl, rfl, rfl, rfl, rfl⟩, ?_⟩
  exact ⟨_, mem_fetch_workouts_of_mem _ uid _ t
    (List.mem_append_right _ (List.mem_singleton_self _)) rfl ht,
    rfl, rfl, rfl⟩

/-- `add_workout_zero_optional_metrics` exercised on a concrete blank
submission. -/
theorem add_workout_zero_optional_metrics_witness :
    ∃ w ∈ (render_add_workout_submit demoDB 1 "swim" (daysFromCivil 2025 10 6)
        60 2 5 "" 0 0 0 0 0 [] " ").2.workouts,
      w.workout_id = demoDB.next_workout_id ∧
      w.elevation_gain_m = none ∧ w.calories_kcal = none ∧
      w.avg_heart_rate_bpm = none ∧ w.avg_cadence = none ∧
      w.avg_power_w = none ∧ w.start_time = none ∧ w.notes = none ∧
      w.gear_id = none :=
  (add_workout_zero_optional_metrics demoDB 1 1 "swim"
    (daysFromCivil 2025 10 6) 60 2 5 "" " " (by decide) (by decide)
    (by decide)).1

/-- Claim C5: `get_weekly_volume_by_sport` aggregates exactly the user's
workouts in the inclusive range, one output row per occupied
`(Monday-aligned week, sport)` group carrying the group's distance and
duration sums; groups with no matching workout produce no row, and the
concrete dates 2025-10-06 and 2025-10-10 truncate to the same Monday
2025-10-06, so they share one week-start row per sport. -/
theorem weekly_volume_groups_by_week_and_sport (db : DB) (uid s e : Nat) :
    (∀ r ∈ get_weekly_volume_by_sport db uid s e,
      r.total_distance_km =
        ((weeklyMatching db uid s e).filter
            (fun p => weeklyKey p == (r.week_start, r.workout_type))).foldl
          (fun acc p => acc + p.1.distance_m.getD 0) 0 / 1000 ∧
      r.total_duration_sec =
        ((weeklyMatching db uid s e).filter
            (fun p => weeklyKey p == (r.week_start, r.workout_type))).foldl
          (fun acc p => acc + p.1.duration_seconds) 0) ∧
    (∀ k : Nat × String,
      (∃ r ∈ get_weekly_volume_by_sport db uid s e,
          (r.week_start, r.workout_type) = k) ↔
        ∃ p ∈ weeklyMatching db uid s e, weeklyKey p = k) ∧
    ((get_weekly_volume_by_sport db uid s e).map
      (fun r => (r.week_start, r.workout_type))).Nodup ∧
    dateTruncWeek (daysFromCivil 2025 10 6) = daysFromCivil 2025 10 6 ∧
    dateTruncWeek (daysFromCivil 2025 10 10) = daysFromCivil 2025 10 6 := by
  have hiff : ∀ k : Nat × String,
      k ∈ List.insertionSort weeklyKeyLe
          (((weeklyMatching db uid s e).map weeklyKey).dedup) ↔
        ∃ p ∈ weeklyMatching db uid s e, weeklyKey p = k := by
    intro k
    rw [List.mem_insertionSort, List.mem_dedup, List.mem_map]
  refine ⟨?_, ?_, ?_, by decide, by decide⟩
  · intro r hr
    obtain ⟨k, hk, rfl⟩ := List.mem_map.mp hr
    refine ⟨?_, ?_⟩ <;> simp [mkWeeklyRow, Prod.mk.eta]
  · intro k
    constructor
    · rintro ⟨r, hr, hkey⟩
      obtain ⟨k2, hk2, rfl⟩ := List.mem_map.mp hr
      have hk : (k2.1, k2.2) = k := hkey
      rw [Prod.mk.eta] at hk
      subst hk
      exact (hiff k2).mp hk2
    · intro hp
      exact ⟨mkWeeklyRow (weeklyMatching db uid s e) k,
        List.mem_map_of_mem _ ((hiff k).mpr hp), Prod.mk.eta⟩
  · have hmapid : (get_weekly_volume_by_sport db uid s e).map
        (fun r => (r.week_start, r.workout_type)) =
        List.insertionSort weeklyKeyLe
          (((weeklyMatching db uid s e).map weeklyKey).dedup) := by
      unfold get_weekly_volume_by_sport
      rw [List.map_map]
      exact (List.map_congr_left (fun k _ => Prod.mk.eta)).trans
        (List.map_id _)
    rw [hmapid]
    exact ((List.perm_insertionSort _ _).nodup_iff).mpr (List.nodup_dedup _)

/-- `weekly_volume_groups_by_week_and_sport` exercised: the Friday
2025-10-10 run lands in the week-start row of Monday 2025-10-06. -/
theorem weekly_volume_groups_witness :
    ∃ r ∈ get_weekly_volume_by_sport weeklyDemoDB 1 (daysFromCivil 2025 10 1)
        (daysFromCivil 2025 10 31),
      (r.week_start, r.workout_type) = (daysFromCivil 2025 10 6, "run") :=
  ((weekly_volume_groups_by_week_and_sport weeklyDemoDB 1
      (daysFromCivil 2025 10 1) (daysFromCivil 2025 10 31)).2.1
    (daysFromCivil 2025 10 6, "run")).mpr
    ⟨(runFriday, "run"), by decide, by decide⟩

/-- Claim C6: `get_total_distance_per_gear` lists the user's gear rows sorted
by descending total distance and, for equal totals, by ascending gear id; in
particular a 42.0 km gear item ranks before a 10.0 km one, and two items tied
at 0 km order by ascending gear id. -/
theorem gear_total_distance_ordering (db : DB) (uid : Nat) :
    List.Sorted gearOrderKm (get_total_distance_per_gear db uid) ∧
    (get_total_distance_per_gear db uid).Perm
      ((gear_distance db uid).map gearRowToKm) ∧
    (get_total_distance_per_gear gearDemoDB 7).map
      (fun r => (r.gear_id, r.total_distance_km)) = [(2, 42), (1, 10)] ∧
    (get_total_distance_per_gear gearTieDB 7).map (fun r => r.gear_id) =
      [1, 2] := by
  refine ⟨?_, ?_, ?_, ?_⟩
  · unfold get_total_distance_per_gear
    refine List.Pairwise.map gearRowToKm ?_
      (List.sorted_insertionSort gearOrder (gear_distance db uid))
    intro a b hab
    unfold gearOrder at hab
    unfold gearOrderKm gearRowToKm
    rcases hab with hab | ⟨hab1, hab2⟩
    · exact Or.inl ((div_lt_div_iff_of_pos_right (by norm_num)).mpr hab)
    · exact Or.inr ⟨by rw [hab1], hab2⟩
  · exact (List.perm_insertionSort gearOrder _).map gearRowToKm
  · norm_num [get_total_distance_per_gear, gear_distance, gearTotalDistanceM,
      gearRowToKm, gearDemoDB, gearOrder, List.insertionSort,
      List.orderedInsert, List.filter, List.foldl]
  · norm_num [get_total_distance_per_gear, gear_distance, gearTotalDistanceM,
      gearRowToKm, gearTieDB, gearOrder, List.insertionSort,
      List.orderedInsert, List.filter, List.foldl]
